import Mathlib

/-!
Shallow embedding of the GAE/VGAE model files of OpenNE
(src/openne/models/gae.py and src/openne/models/vgae.py).

Real tensors are modelled as rational matrices (functions out of Fin).
The dropout and sampling randomness of one forward call is passed in
explicitly as mask / eps arguments. Torch internals that live outside
these files (autograd, Adam, binary cross entropy with logits, the
elementwise exponential) are abstracted as function parameters of the
definitions that use them.
-/

namespace OpenNE

/-- torch.mm: dense matrix product. -/
def mmProd {l m n : ℕ} (A : Fin l → Fin m → ℚ) (B : Fin m → Fin n → ℚ) :
    Fin l → Fin n → ℚ :=
  fun i k => ∑ j, A i j * B j k

/-- Tensor.t(): matrix transpose. -/
def transposeM {m n : ℕ} (A : Fin m → Fin n → ℚ) : Fin n → Fin m → ℚ :=
  fun i j => A j i

/-- adj.sum(): the sum of all entries of the adjacency matrix
    nx.adjacency_matrix(g) built in preprocess_data (gae.py:150 / vgae.py:167). -/
def adjSum (n : ℕ) (A : Fin n → Fin n → ℚ) : ℚ := ∑ i, ∑ j, A i j

/-- pos_weight as computed at gae.py:151 / vgae.py:168:
    float(n * n - adj.sum()) / adj.sum(). When adj.sum() = 0 this Python float
    division returns the non-finite value inf (numpy emits a RuntimeWarning, not
    an exception); a non-finite result is modelled as none. -/
def pos_weight (n : ℕ) (s : ℚ) : Option ℚ :=
  if s = 0 then none else some (((n : ℚ) * n - s) / s)

/-- norm as computed at gae.py:152 / vgae.py:169:
    n * n / float((n * n - adj.sum()) * 2); none models a non-finite result. -/
def norm (n : ℕ) (s : ℚ) : Option ℚ :=
  if ((n : ℚ) * n - s) * 2 = 0 then none
  else some ((n : ℚ) * n / (((n : ℚ) * n - s) * 2))

/-- Outcome of the pos_weight / norm part of preprocess_data: either an exception
    escapes, or both scalars are computed. -/
inductive PreprocessScalars where
  | raised (err : String)
  | computed (pw : Option ℚ) (nrm : Option ℚ)
deriving DecidableEq

/-- preprocess_data at gae.py:150-152 / vgae.py:167-169: both scalars are computed
    unconditionally. The method body contains no zero-edge check and no raise
    statement, so no DegenerateGraphError (nor any other exception) is raised on
    this path, whatever the edge count. -/
def preprocessScalars (n : ℕ) (A : Fin n → Fin n → ℚ) : PreprocessScalars :=
  .computed (pos_weight n (adjSum n A)) (norm n (adjSum n A))

/-- Adjacency matrix of the one-node graph with zero edges. -/
def zeroEdgeAdj : Fin 1 → Fin 1 → ℚ := fun _ _ => 0

/-- Adjacency matrix of the two-node graph with the single undirected
    edge 0-1 (so adj.sum() = 2). -/
def pathAdj2 : Fin 2 → Fin 2 → ℚ := fun i j => if i = j then 0 else 1

lemma adjSum_zeroEdgeAdj : adjSum 1 zeroEdgeAdj = 0 := by
  simp [adjSum, zeroEdgeAdj]

lemma adjSum_pathAdj2 : adjSum 2 pathAdj2 = 2 := by
  norm_num [adjSum, pathAdj2, Fin.sum_univ_two]

/-- C1 counterexample: on the one-node zero-edge graph, preprocess_data raises
    nothing: it computes a non-finite (inf) pos_weight from the division by the
    zero edge sum, and norm = 1/2, contradicting the claim that a
    DegenerateGraphError is raised. -/
theorem C1_counterexample :
    preprocessScalars 1 zeroEdgeAdj = .computed none (some (1 / 2)) := by
  unfold preprocessScalars pos_weight norm
  rw [adjSum_zeroEdgeAdj]
  norm_num

/-- C1 amended: for every graph with at least one node and zero edges,
    preprocessing does not fail: it silently computes a non-finite (inf)
    pos_weight and a finite norm equal to 1/2. -/
theorem C1_zero_edges_silent (n : ℕ) (A : Fin n → Fin n → ℚ)
    (hn : 0 < n) (h0 : adjSum n A = 0) :
    preprocessScalars n A = .computed none (some (1 / 2)) := by
  have hnq : (0 : ℚ) < (n : ℚ) := by exact_mod_cast hn
  have hne : ((n : ℚ) * n - 0) * 2 ≠ 0 := by nlinarith
  unfold preprocessScalars pos_weight norm
  rw [h0, if_pos rfl, if_neg hne]
  have hval : (n : ℚ) * n / (((n : ℚ) * n - 0) * 2) = 1 / 2 := by
    rw [sub_zero, div_eq_div_iff (by nlinarith) (by norm_num)]
    ring
  rw [hval]

/-- C1 witness for the amended statement, at the one-node zero-edge graph. -/
theorem C1_zero_edges_silent_witness :
    0 < 1 ∧ adjSum 1 zeroEdgeAdj = 0 ∧
      preprocessScalars 1 zeroEdgeAdj = .computed none (some (1 / 2)) :=
  ⟨by decide, adjSum_zeroEdgeAdj,
    C1_zero_edges_silent 1 zeroEdgeAdj (by decide) adjSum_zeroEdgeAdj⟩

/-- C6: for every graph with at least one edge (nonzero adjacency sum), the
    computed pos_weight is the finite value (n² − ΣA)/ΣA, it satisfies
    pos_weight · ΣA = n² − ΣA exactly, and whenever 2(n² − ΣA) is nonzero the
    computed norm is the finite value n² / (2(n² − ΣA)). -/
theorem C6_pos_weight_norm (n : ℕ) (A : Fin n → Fin n → ℚ)
    (h : adjSum n A ≠ 0) :
    pos_weight n (adjSum n A)
        = some (((n : ℚ) * n - adjSum n A) / adjSum n A)
    ∧ (((n : ℚ) * n - adjSum n A) / adjSum n A) * adjSum n A
        = (n : ℚ) * n - adjSum n A
    ∧ (((n : ℚ) * n - adjSum n A) * 2 ≠ 0 →
        norm n (adjSum n A)
          = some ((n : ℚ) * n / (((n : ℚ) * n - adjSum n A) * 2))) := by
  refine ⟨by simp [pos_weight, h], div_mul_cancel₀ _ h, fun hd => by simp [norm, hd]⟩

/-- C6 witness at the two-node single-edge graph: ΣA = 2, pos_weight = 1,
    and 1 · 2 = 4 − 2. -/
theorem C6_pos_weight_norm_witness :
    adjSum 2 pathAdj2 ≠ 0 ∧
    (pos_weight 2 (adjSum 2 pathAdj2)
        = some ((((2 : ℕ) : ℚ) * 2 - adjSum 2 pathAdj2) / adjSum 2 pathAdj2)
    ∧ ((((2 : ℕ) : ℚ) * 2 - adjSum 2 pathAdj2) / adjSum 2 pathAdj2) * adjSum 2 pathAdj2
        = ((2 : ℕ) : ℚ) * 2 - adjSum 2 pathAdj2
    ∧ ((((2 : ℕ) : ℚ) * 2 - adjSum 2 pathAdj2) * 2 ≠ 0 →
        norm 2 (adjSum 2 pathAdj2)
          = some (((2 : ℕ) : ℚ) * 2 / ((((2 : ℕ) : ℚ) * 2 - adjSum 2 pathAdj2) * 2)))) :=
  ⟨by rw [adjSum_pathAdj2]; norm_num,
    C6_pos_weight_norm 2 pathAdj2 (by rw [adjSum_pathAdj2]; norm_num)⟩

/-- F.dropout(input, p, training) as called at gae.py:181: identity when
    training is false; when training, every entry on which the Bernoulli(p) mask
    fires is zeroed and the surviving entries are rescaled by 1/(1-p). The mask
    argument stands for the random draw made for this particular call. -/
def dropout {N F : ℕ} (p : ℚ) (training : Bool) (mask : Fin N → Fin F → Bool)
    (x : Fin N → Fin F → ℚ) : Fin N → Fin F → ℚ :=
  if training then (fun i j => if mask i j then 0 else x i j / (1 - p)) else x

/-- State of one GraphConvolution layer (gae.py:163-178): a single weight matrix
    (Parameter, Xavier-initialized), a dropout rate and an activation; the layer
    defines no bias parameter. -/
structure GCLayer (nin nout : ℕ) where
  weight : Fin nin → Fin nout → ℚ
  dropoutRate : ℚ
  act : ℚ → ℚ

/-- GraphConvolution.forward (gae.py:180-185): dropout on the layer input, then
    support = input · W, then output = adj · support, then the activation. -/
def GCforward {N nin nout : ℕ} (layer : GCLayer nin nout) (training : Bool)
    (mask : Fin N → Fin nin → Bool) (input : Fin N → Fin nin → ℚ)
    (adj : Fin N → Fin N → ℚ) : Fin N → Fin nout → ℚ :=
  let inp := dropout layer.dropoutRate training mask input
  let support := mmProd inp layer.weight
  let output := mmProd adj support
  fun i j => layer.act (output i j)

/-- C8: the layer's forward pass computes activation(adj · (dropout(input) · W))
    with no bias term, where dropout acts on the layer input at the configured
    rate in training mode and is the identity in evaluation mode. -/
theorem C8_graph_convolution_forward {N nin nout : ℕ} (layer : GCLayer nin nout)
    (training : Bool) (mask : Fin N → Fin nin → Bool)
    (input : Fin N → Fin nin → ℚ) (adj : Fin N → Fin N → ℚ) :
    GCforward layer training mask input adj
      = (fun i j => layer.act
          (mmProd adj
            (mmProd (dropout layer.dropoutRate training mask input) layer.weight) i j))
    ∧ dropout layer.dropoutRate false mask input = input :=
  ⟨rfl, rfl⟩

/-- State of a built GAE whose dimension list is [nin, nout]: GAEModel then holds
    a single GraphConvolution layer with identity activation (gae.py:18-20, the
    range(1, len(dimensions) - 1) loop being empty), together with the stored
    feature matrix, the support operator and the nn.Module training flag. -/
structure GAE1 (N nin nout : ℕ) where
  training : Bool
  weight : Fin nin → Fin nout → ℚ
  dropoutRate : ℚ
  features : Fin N → Fin nin → ℚ
  adj : Fin N → Fin N → ℚ

/-- GAEModel.forward (gae.py:22-26) for the single-layer model: one
    GraphConvolution pass, with identity activation, run in the model's current
    training mode; mask is the dropout randomness of this call. -/
def gaeForward {N nin nout : ℕ} (m : GAE1 N nin nout)
    (mask : Fin N → Fin nin → Bool) : Fin N → Fin nout → ℚ :=
  GCforward ⟨m.weight, m.dropoutRate, fun x => x⟩ m.training mask m.features m.adj

/-- self.model.train(train) as called inside evaluate (gae.py:125): sets the
    nn.Module training flag. -/
def modelTrain {N nin nout : ℕ} (m : GAE1 N nin nout) (b : Bool) :
    GAE1 N nin nout :=
  { m with training := b }

/-- GAE._get_embeddings (gae.py:134-135): self.model(self.features).detach().
    The forward pass runs in whatever training mode the model currently has:
    the method contains no eval() or train(False) call and no torch.no_grad()
    block, only a detach of the result. -/
def get_embeddings {N nin nout : ℕ} (m : GAE1 N nin nout)
    (mask : Fin N → Fin nin → Bool) : Fin N → Fin nout → ℚ :=
  gaeForward m mask

/-- Concrete one-node model with dropout rate 1/2, unit weight, feature and
    support, built in evaluation mode. -/
def gaeDemo : GAE1 1 1 1 :=
  ⟨false, fun _ _ => 1, 1 / 2, fun _ _ => 1, fun _ _ => 1⟩

/-- Model state right after a training step: evaluate(train=True) has called
    self.model.train(True). -/
def gaeAfterStep : GAE1 1 1 1 := modelTrain gaeDemo true

/-- Dropout mask that keeps every entry. -/
def maskKeep : Fin 1 → Fin 1 → Bool := fun _ _ => false

/-- Dropout mask that zeroes every entry. -/
def maskDrop : Fin 1 → Fin 1 → Bool := fun _ _ => true

/-- C3 counterexample: after a training step the model is still in training mode
    and _get_embeddings does not reset it, so with dropout rate 1/2 two calls on
    identical parameters and identical input can store different embedding
    matrices (here 2 versus 0), refuting evaluation-mode determinism. -/
theorem C3_counterexample :
    gaeAfterStep.training = true ∧
      get_embeddings gaeAfterStep maskKeep ≠ get_embeddings gaeAfterStep maskDrop := by
  refine ⟨rfl, fun h => ?_⟩
  have h0 := congrFun (congrFun h 0) 0
  norm_num [get_embeddings, gaeForward, GCforward, dropout, mmProd,
    gaeAfterStep, gaeDemo, modelTrain, maskKeep, maskDrop] at h0

/-- C3 amended: _get_embeddings runs the encoder in the model's current mode;
    whenever that mode is evaluation (training = false), the stored embedding is
    independent of the dropout randomness, so repeated calls with identical
    parameters and input store identical embedding matrices. -/
theorem C3_eval_mode_deterministic {N nin nout : ℕ} (m : GAE1 N nin nout)
    (mask₁ mask₂ : Fin N → Fin nin → Bool) (h : m.training = false) :
    get_embeddings m mask₁ = get_embeddings m mask₂ := by
  unfold get_embeddings gaeForward GCforward dropout
  rw [h]
  simp

/-- C3 witness for the amended statement, on the concrete evaluation-mode model
    with two different masks. -/
theorem C3_eval_mode_deterministic_witness :
    gaeDemo.training = false ∧
      get_embeddings gaeDemo maskKeep = get_embeddings gaeDemo maskDrop :=
  ⟨rfl, C3_eval_mode_deterministic gaeDemo maskKeep maskDrop rfl⟩

/-- Result of binding a Python call against a parameter list. -/
inductive CallResult where
  | ok
  | multipleValues (arg : String)
  | tooManyPositional
deriving DecidableEq

/-- Python call binding for positional-or-keyword parameters: too many positional
    arguments is a TypeError, and a keyword argument whose parameter already
    received a positional value raises
    TypeError: got multiple values for that argument. -/
def bindCall (params : List String) (npos : ℕ) (kwargs : List String) :
    CallResult :=
  if params.length < npos then .tooManyPositional
  else
    match kwargs.find? (fun k => (params.take npos).contains k) with
    | some k => .multipleValues k
    | none => .ok

/-- Positional parameter list (after self) of GraphConvolution.__init__ as
    defined at the bottom of vgae.py (vgae.py:186) and of gae.py (gae.py:168).
    The class defined at vgae.py:181-203 shadows the imported
    gcn.layers.GraphConvolution (vgae.py:3-4) for every call made inside
    vgae.py, because the module body rebinds the name after the imports. -/
def gcInitParams : List String := ["in_features", "out_features", "dropout", "act"]

/-- Argument shape of every layer construction in VGAEModel.__init__
    (vgae.py:18, 20, 21): GraphConvolution(dim_in, dim_out, [adj], dropout,
    act=...), i.e. four positional arguments plus the keyword act, aimed at the
    gcn.layers signature but resolved against the shadowing class. -/
def vgaeLayerCall : CallResult := bindCall gcInitParams 4 ["act"]

/-- Argument shape of the layer constructions in GAEModel.__init__
    (gae.py:19-20): GraphConvolution(dim_in, dim_out, dropout, act=...), i.e.
    three positional arguments plus the keyword act. -/
def gaeLayerCall : CallResult := bindCall gcInitParams 3 ["act"]

/-- GAEModel's layer constructions bind cleanly against the in-file
    GraphConvolution signature. -/
theorem gaeLayerCall_ok : gaeLayerCall = .ok := by decide

/-- C2: constructing any layer of a VGAEModel raises
    TypeError: got multiple values for argument act — the support list lands in
    the dropout slot and the fourth positional argument collides with the act
    keyword of the shadowing GraphConvolution class — so the VGAE encoder can
    never run, let alone return mu and logvar. -/
theorem C2_vgae_layer_construction_fails :
    vgaeLayerCall = .multipleValues "act" := by decide

/-- VGAEModel.reparameterize (vgae.py:29-35): when self.training,
    std = torch.exp(logvar), eps = torch.randn_like(std), and the result is
    eps.mul(std).add_(mu); otherwise the result is mu. pyexp abstracts the
    elementwise torch.exp and eps stands for the fresh standard-normal draw
    made by this call. -/
def reparameterize {N d : ℕ} (pyexp : ℚ → ℚ) (training : Bool)
    (mu logvar eps : Fin N → Fin d → ℚ) : Fin N → Fin d → ℚ :=
  if training then (fun i j => eps i j * pyexp (logvar i j) + mu i j) else mu

/-- C5: in training mode z = mu + exp(logvar) · eps elementwise (the noise scale
    is exp(logvar), not exp(0.5 · logvar)), with the eps of this call; in
    evaluation mode z = mu identically for every eps, so no sampling occurs. -/
theorem C5_reparameterize {N d : ℕ} (pyexp : ℚ → ℚ)
    (mu logvar eps : Fin N → Fin d → ℚ) :
    reparameterize pyexp true mu logvar eps
        = (fun i j => mu i j + pyexp (logvar i j) * eps i j)
    ∧ reparameterize pyexp false mu logvar eps = mu := by
  constructor
  · funext i j
    simp only [reparameterize, if_pos]
    ring
  · rfl

/-- GAE.loss (gae.py:112-118): cost = 0 plus
    norm · BCEWithLogits(output · outputᵀ, adj_label, pos_weight); bce abstracts
    F.binary_cross_entropy_with_logits applied to logits, labels and pos_weight. -/
def gae_loss {N d : ℕ}
    (bce : (Fin N → Fin N → ℚ) → (Fin N → Fin N → ℚ) → ℚ → ℚ)
    (output : Fin N → Fin d → ℚ) (adj_label : Fin N → Fin N → ℚ)
    (pw nrm : ℚ) : ℚ :=
  nrm * bce (mmProd output (transposeM output)) adj_label pw

/-- KLD as computed at vgae.py:129: -0.5 / n_nodes times the mean over the N
    rows of the per-row sum over embedding dimensions of
    1 + 2 · logvar − mu² − exp(logvar)². -/
def KLD {N d : ℕ} (pyexp : ℚ → ℚ) (mu logvar : Fin N → Fin d → ℚ)
    (n_nodes : ℚ) : ℚ :=
  -(1 / 2) / n_nodes *
    ((∑ i, ∑ j, (1 + 2 * logvar i j - mu i j ^ 2 - pyexp (logvar i j) ^ 2)) / N)

/-- VGAE.loss (vgae.py:125-130): the reconstruction cost (same expression as
    GAE.loss) plus KLD. -/
def vgae_loss {N d : ℕ}
    (bce : (Fin N → Fin N → ℚ) → (Fin N → Fin N → ℚ) → ℚ → ℚ)
    (pyexp : ℚ → ℚ) (output : Fin N → Fin d → ℚ)
    (adj_label : Fin N → Fin N → ℚ) (pw nrm : ℚ)
    (mu logvar : Fin N → Fin d → ℚ) (n_nodes : ℚ) : ℚ :=
  nrm * bce (mmProd output (transposeM output)) adj_label pw
    + KLD pyexp mu logvar n_nodes

/-- C7: the VGAE loss is exactly the GAE reconstruction loss plus the KLD term,
    and the KLD term vanishes at mu = 0 and logvar = 0 (given exp 0 = 1). -/
theorem C7_vgae_loss {N d : ℕ}
    (bce : (Fin N → Fin N → ℚ) → (Fin N → Fin N → ℚ) → ℚ → ℚ)
    (pyexp : ℚ → ℚ) (output : Fin N → Fin d → ℚ)
    (adj_label : Fin N → Fin N → ℚ) (pw nrm : ℚ)
    (mu logvar : Fin N → Fin d → ℚ) (n_nodes : ℚ)
    (hexp : pyexp 0 = 1) :
    vgae_loss bce pyexp output adj_label pw nrm mu logvar n_nodes
        = gae_loss bce output adj_label pw nrm + KLD pyexp mu logvar n_nodes
    ∧ KLD pyexp ((fun _ _ => (0 : ℚ)) : Fin N → Fin d → ℚ)
        ((fun _ _ => (0 : ℚ)) : Fin N → Fin d → ℚ) n_nodes = 0 := by
  refine ⟨rfl, ?_⟩
  simp [KLD, hexp]

/-- C7 witness at N = d = 1 with zero mu, logvar and a concrete exp-like
    function satisfying exp 0 = 1. -/
theorem C7_vgae_loss_witness :
    (fun x : ℚ => x + 1) 0 = 1 ∧
    (vgae_loss (fun _ _ _ => (0 : ℚ)) (fun x : ℚ => x + 1)
        ((fun _ _ => (0 : ℚ)) : Fin 1 → Fin 1 → ℚ)
        (fun _ _ => (0 : ℚ)) 0 0 (fun _ _ => (0 : ℚ)) (fun _ _ => (0 : ℚ)) 1
      = gae_loss (fun _ _ _ => (0 : ℚ))
          ((fun _ _ => (0 : ℚ)) : Fin 1 → Fin 1 → ℚ) (fun _ _ => (0 : ℚ)) 0 0
        + KLD (fun x : ℚ => x + 1)
            ((fun _ _ => (0 : ℚ)) : Fin 1 → Fin 1 → ℚ) (fun _ _ => (0 : ℚ)) 1
    ∧ KLD (fun x : ℚ => x + 1)
        ((fun _ _ => (0 : ℚ)) : Fin 1 → Fin 1 → ℚ) (fun _ _ => (0 : ℚ)) 1 = 0) :=
  ⟨by norm_num,
    C7_vgae_loss (fun _ _ _ => (0 : ℚ)) (fun x : ℚ => x + 1)
      ((fun _ _ => (0 : ℚ)) : Fin 1 → Fin 1 → ℚ) (fun _ _ => (0 : ℚ)) 0 0
      (fun _ _ => (0 : ℚ)) (fun _ _ => (0 : ℚ)) 1 (by norm_num)⟩

/-- Hyperparameter record: the keys validated by GAE.check_train_parameters /
    VGAE.check_train_parameters (gae.py:36-53, vgae.py:50-67), after
    check_existance has filled in the defaults, so every key is present. -/
structure TrainParams where
  lr : ℚ
  epochs : ℚ
  dropout : ℚ
  weight_decay : ℚ
  early_stopping : ℚ
  clf_ratio : ℚ
  max_degree : ℚ
deriving DecidableEq

/-- Modelled from the spec: check_range (imported from gcn.utils, which is not
    part of the given sources) validates each key of the range table passed at
    gae.py:46-52 / vgae.py:60-66 and, per the spec, fails with a
    ConfigurationError listing every violated constraint, not just the first,
    with the ranges lr ∈ (0,∞), epochs ∈ (0,∞), dropout ∈ [0,1],
    weight_decay ∈ (0,1), early_stopping ∈ (0,∞), clf_ratio ∈ (0,1),
    max_degree ∈ [0,∞). This function collects the violated keys in order. -/
def rangeViolations (p : TrainParams) : List String :=
  (if p.lr ≤ 0 then ["lr"] else [])
    ++ (if p.epochs ≤ 0 then ["epochs"] else [])
    ++ (if p.dropout < 0 ∨ 1 < p.dropout then ["dropout"] else [])
    ++ (if p.weight_decay ≤ 0 ∨ 1 ≤ p.weight_decay then ["weight_decay"] else [])
    ++ (if p.early_stopping ≤ 0 then ["early_stopping"] else [])
    ++ (if p.clf_ratio ≤ 0 ∨ 1 ≤ p.clf_ratio then ["clf_ratio"] else [])
    ++ (if p.max_degree < 0 then ["max_degree"] else [])

/-- check_train_parameters (gae.py:36-53 / vgae.py:50-67) with check_range
    modelled from the spec: when any key is out of range the ConfigurationError
    report (the error value) names every violated key; otherwise the validated
    parameters are returned. -/
def check_train_parameters (p : TrainParams) :
    Except (List String) TrainParams :=
  if rangeViolations p = [] then .ok p else .error (rangeViolations p)

/-- C4: for every hyperparameter record whose lr is out of range (lr ≤ 0, e.g.
    lr = -0.1), check_train_parameters fails with a report that names lr and
    also every other violated constraint, not only the first one found. -/
theorem C4_check_train_parameters (p : TrainParams) (hlr : p.lr ≤ 0) :
    ∃ vs, check_train_parameters p = .error vs
      ∧ "lr" ∈ vs
      ∧ (p.epochs ≤ 0 → "epochs" ∈ vs)
      ∧ ((p.dropout < 0 ∨ 1 < p.dropout) → "dropout" ∈ vs)
      ∧ ((p.weight_decay ≤ 0 ∨ 1 ≤ p.weight_decay) → "weight_decay" ∈ vs)
      ∧ (p.early_stopping ≤ 0 → "early_stopping" ∈ vs)
      ∧ ((p.clf_ratio ≤ 0 ∨ 1 ≤ p.clf_ratio) → "clf_ratio" ∈ vs)
      ∧ (p.max_degree < 0 → "max_degree" ∈ vs) := by
  refine ⟨rangeViolations p, ?_, ?_, ?_, ?_, ?_, ?_, ?_, ?_⟩
  · have hmem : "lr" ∈ rangeViolations p := by
      simp [rangeViolations, List.mem_append, hlr]
    have hne : rangeViolations p ≠ [] := by
      intro h
      rw [h] at hmem
      exact List.not_mem_nil _ hmem
    simp [check_train_parameters, hne]
  · simp [rangeViolations, List.mem_append, hlr]
  · intro h
    simp [rangeViolations, List.mem_append, h]
  · intro h
    simp [rangeViolations, List.mem_append, h]
  · intro h
    simp [rangeViolations, List.mem_append, h]
  · intro h
    simp [rangeViolations, List.mem_append, h]
  · intro h
    simp [rangeViolations, List.mem_append, h]
  · intro h
    simp [rangeViolations, List.mem_append, h]

/-- Scenario parameters of the spec: lr = -0.1 and every other field at its
    (valid) default. -/
def badLrParams : TrainParams :=
  ⟨-1 / 10, 200, 0, 1 / 10000, 100, 1 / 2, 0⟩

/-- C4 witness at lr = -0.1 with all other fields valid. -/
theorem C4_check_train_parameters_witness :
    badLrParams.lr ≤ 0 ∧
    ∃ vs, check_train_parameters badLrParams = .error vs
      ∧ "lr" ∈ vs
      ∧ (badLrParams.epochs ≤ 0 → "epochs" ∈ vs)
      ∧ ((badLrParams.dropout < 0 ∨ 1 < badLrParams.dropout) → "dropout" ∈ vs)
      ∧ ((badLrParams.weight_decay ≤ 0 ∨ 1 ≤ badLrParams.weight_decay) →
          "weight_decay" ∈ vs)
      ∧ (badLrParams.early_stopping ≤ 0 → "early_stopping" ∈ vs)
      ∧ ((badLrParams.clf_ratio ≤ 0 ∨ 1 ≤ badLrParams.clf_ratio) →
          "clf_ratio" ∈ vs)
      ∧ (badLrParams.max_degree < 0 → "max_degree" ∈ vs) :=
  ⟨by norm_num [badLrParams],
    C4_check_train_parameters badLrParams (by norm_num [badLrParams])⟩

/-- Training-loop state owned by one model instance: the encoder parameters, the
    Adam moment buffers, the parameter gradients and the nn.Module training
    flag. -/
structure TState (P M G : Type) where
  params : P
  moments : M
  grads : G
  training : Bool

/-- What one call of evaluate returns and does: the new state, the loss, the
    number of backward passes and of optimizer steps performed during the call,
    and whether a TrainingDivergedError escaped. -/
structure EvalOut (P M G L : Type) where
  state : TState P M G
  loss : L
  backwardCalls : ℕ
  optimizerSteps : ℕ
  raisedTrainingDiverged : Bool

/-- GAE.evaluate / VGAE.evaluate (gae.py:122-132 / vgae.py:134-146):
    optimizer.zero_grad(); self.model.train(train); forward pass and loss; and,
    only if train, loss.backward() then optimizer.step(). forwardLoss, backward
    and adamStep abstract torch autograd and torch.optim.Adam (code outside
    these files); forwardLoss receives the training flag because dropout and
    sampling depend on it. The method body contains no finiteness check on the
    loss and no raise statement, so raisedTrainingDiverged is always false. -/
def evaluate {P M G L : Type} (zeroG : G) (forwardLoss : P → Bool → L)
    (backward : P → L → G) (adamStep : P → M → G → P × M)
    (train : Bool) (s : TState P M G) : EvalOut P M G L :=
  let s1 : TState P M G := { s with grads := zeroG, training := train }
  let l := forwardLoss s1.params train
  if train then
    let g := backward s1.params l
    let pm := adamStep s1.params s1.moments g
    { state := { params := pm.1, moments := pm.2, grads := g, training := train },
      loss := l, backwardCalls := 1, optimizerSteps := 1,
      raisedTrainingDiverged := false }
  else
    { state := s1, loss := l, backwardCalls := 0, optimizerSteps := 0,
      raisedTrainingDiverged := false }

/-- C10: evaluate with train = False computes the loss but leaves the parameters
    and the optimizer moments unchanged, with no backward pass and no optimizer
    step; with train = True it performs exactly one backward pass and one Adam
    step, and the new parameters and moments are the result of that single
    step. -/
theorem C10_evaluate_frame {P M G L : Type} (zeroG : G)
    (forwardLoss : P → Bool → L) (backward : P → L → G)
    (adamStep : P → M → G → P × M) (s : TState P M G) :
    ((evaluate zeroG forwardLoss backward adamStep false s).state.params = s.params
      ∧ (evaluate zeroG forwardLoss backward adamStep false s).state.moments = s.moments
      ∧ (evaluate zeroG forwardLoss backward adamStep false s).backwardCalls = 0
      ∧ (evaluate zeroG forwardLoss backward adamStep false s).optimizerSteps = 0)
    ∧ ((evaluate zeroG forwardLoss backward adamStep true s).backwardCalls = 1
      ∧ (evaluate zeroG forwardLoss backward adamStep true s).optimizerSteps = 1
      ∧ (evaluate zeroG forwardLoss backward adamStep true s).state.params
          = (adamStep s.params s.moments
              (backward s.params (forwardLoss s.params true))).1
      ∧ (evaluate zeroG forwardLoss backward adamStep true s).state.moments
          = (adamStep s.params s.moments
              (backward s.params (forwardLoss s.params true))).2) :=
  ⟨⟨rfl, rfl, rfl, rfl⟩, ⟨rfl, rfl, rfl, rfl⟩⟩

/-- C9 amended: evaluate performs no finiteness check on the loss: it never
    raises a TrainingDivergedError, whatever the loss value, and a training call
    performs its optimizer step unconditionally. -/
theorem C9_no_divergence_check {P M G L : Type} (zeroG : G)
    (forwardLoss : P → Bool → L) (backward : P → L → G)
    (adamStep : P → M → G → P × M) (train : Bool) (s : TState P M G) :
    (evaluate zeroG forwardLoss backward adamStep train s).raisedTrainingDiverged
        = false
    ∧ (evaluate zeroG forwardLoss backward adamStep true s).optimizerSteps = 1 := by
  cases train <;> exact ⟨rfl, rfl⟩

/-- Forward pass whose loss is non-finite: NaN/Inf is modelled as none. -/
def nanLoss : ℚ → Bool → Option ℚ := fun _ _ => none

/-- Initial training state for the C9 counterexample. -/
def tstate0 : TState ℚ ℚ ℚ := ⟨0, 0, 0, false⟩

/-- C9 counterexample: a training step whose loss comes out non-finite (none)
    raises nothing — raisedTrainingDiverged is false — and still performs its
    optimizer step, contradicting the claim that a TrainingDivergedError
    propagates to the caller. -/
theorem C9_counterexample :
    (evaluate (0 : ℚ) nanLoss (fun _ _ => (0 : ℚ)) (fun p m _ => (p, m))
        true tstate0).raisedTrainingDiverged = false
    ∧ (evaluate (0 : ℚ) nanLoss (fun _ _ => (0 : ℚ)) (fun p m _ => (p, m))
        true tstate0).loss = none
    ∧ (evaluate (0 : ℚ) nanLoss (fun _ _ => (0 : ℚ)) (fun p m _ => (p, m))
        true tstate0).optimizerSteps = 1 :=
  ⟨rfl, rfl, rfl⟩

end OpenNE
